import Mathlib

/-
  Shallow embedding of src/backend/contracts/TokenFaucet.sol.

  Addresses, token amounts and timestamps are modelled as Nat.  Solidity 0.8
  checked arithmetic reverts on overflow instead of wrapping; on Nat the sums
  never wrap, and every comparison the contract performs is carried out on the
  exact mathematical values, so the two agree on all behaviour the claims
  touch.  The external ERC-20 ledger is modelled by the field extBal, mapping
  a token-contract address to the balance the faucet custodies in that
  ledger; a safeTransfer out of the faucet fails (reverting the whole call,
  as SafeERC20 does) when that balance is short.  Outbound ledger transfers
  are recorded in the ghost field transfers as (token, recipient, amount)
  triples, and emitted events in the ghost field log (most recent first).
  Transaction revert semantics of the host chain are modelled by the Except
  monad: a failed operation returns an error and no successor state, and the
  top-level interpreter exec keeps the pre-call state on error.
-/

namespace TokenFaucet

/-- Failure kinds of the controller, following the error taxonomy of the
specification; ledgerTransferFailed stands for a revert raised inside the
ERC-20 token itself (for example an insufficient-balance revert during
safeTransfer), as opposed to an explicit require in the faucet. -/
inductive Err where
  | invalidConfig
  | unauthorized
  | paused
  | notPaused
  | callerNotOriginator
  | blacklisted
  | cooldownActive
  | perAddressCapExceeded
  | dailyCapExceeded
  | insufficientFaucetBalance
  | ledgerTransferFailed
  | invalidAmount
  | invalidAddress
  | invalidRecipient
  | lengthMismatch
  | emptyInput
  deriving DecidableEq

/-- Events emitted by TokenFaucet.sol (lines 42-53). -/
inductive Event where
  | tokensRequested (user amount time : Nat)
  | tokensDeposited (depositor amount : Nat)
  | tokensWithdrawn (recipient amount : Nat)
  | faucetConfigured (tokensPerRequest cooldownTime maxTokensPerAddress dailyLimit : Nat)
  | userBlacklisted (user : Nat) (status : Bool)
  | dailyLimitReset (time previousTotal : Nat)
  | emergencyWithdraw (tokenAddress amount : Nat)
  deriving DecidableEq

/-- The full storage of the TokenFaucet contract (lines 25-38), together with
the Ownable owner, the Pausable flag, the external ledger balances held by
the faucet, and the ghost transfer and event logs. -/
structure FaucetState where
  owner : Nat
  token : Nat
  tokensPerRequest : Nat
  cooldownTime : Nat
  maxTokensPerAddress : Nat
  dailyLimit : Nat
  totalDistributedToday : Nat
  lastResetTime : Nat
  lastRequestTime : Nat → Nat
  totalTokensReceived : Nat → Nat
  blacklisted : Nat → Bool
  paused : Bool
  extBal : Nat → Nat
  transfers : List (Nat × Nat × Nat)
  log : List Event

/-- SafeERC20.safeTransfer of amount from the faucet to account to, inside
the ERC-20 contract at address tok: reverts inside the token when the
custodied balance is short, otherwise debits the balance and records the
outbound transfer. -/
def safeTransfer (tok dst amount : Nat) (s : FaucetState) : Except Err FaucetState :=
  if s.extBal tok < amount then .error .ledgerTransferFailed
  else .ok { s with
    extBal := Function.update s.extBal tok (s.extBal tok - amount),
    transfers := (tok, dst, amount) :: s.transfers }

/-- Internal _resetDailyLimit (lines 370-376): zero the running total, stamp
the reset time, emit DailyLimitReset with the previous total. -/
def resetDailyLimit (time : Nat) (s : FaucetState) : FaucetState :=
  { s with
    totalDistributedToday := 0,
    lastResetTime := time,
    log := Event.dailyLimitReset time s.totalDistributedToday :: s.log }

/-- Internal _resetDailyLimitIfNeeded (lines 361-365); 1 days = 86400. -/
def resetDailyLimitIfNeeded (time : Nat) (s : FaucetState) : FaucetState :=
  if s.lastResetTime + 86400 ≤ time then resetDailyLimit time s else s

/-- Internal _validateRequest (lines 319-332): originator check, blacklist,
cooldown, per-address lifetime cap, in source order; none = all pass. -/
def validateRequest (user origin time : Nat) (s : FaucetState) : Option Err :=
  if user ≠ origin then some .callerNotOriginator
  else if s.blacklisted user then some .blacklisted
  else if time < s.lastRequestTime user + s.cooldownTime then some .cooldownActive
  else if s.maxTokensPerAddress < s.totalTokensReceived user + s.tokensPerRequest then
    some .perAddressCapExceeded
  else none

/-- The user-record and daily-total updates of requestTokens (lines 104-107). -/
def applyRequestAccounting (user time : Nat) (s1 : FaucetState) : FaucetState :=
  { s1 with
    lastRequestTime := Function.update s1.lastRequestTime user time,
    totalTokensReceived :=
      Function.update s1.totalTokensReceived user
        (s1.totalTokensReceived user + s1.tokensPerRequest),
    totalDistributedToday := s1.totalDistributedToday + s1.tokensPerRequest }

/-- requestTokens (lines 88-113): whenNotPaused, _validateRequest,
_resetDailyLimitIfNeeded, daily-cap require, balance require, accounting
updates, safeTransfer, TokensRequested event.  user is msg.sender and origin
is tx.origin. -/
def requestTokens (user origin time : Nat) (s : FaucetState) : Except Err FaucetState :=
  if s.paused then .error .paused
  else match validateRequest user origin time s with
    | some e => .error e
    | none =>
      let s1 := resetDailyLimitIfNeeded time s
      if s1.dailyLimit < s1.totalDistributedToday + s1.tokensPerRequest then
        .error .dailyCapExceeded
      else if s1.extBal s1.token < s1.tokensPerRequest then
        .error .insufficientFaucetBalance
      else
        match safeTransfer s1.token user s1.tokensPerRequest
            (applyRequestAccounting user time s1) with
        | .error e => .error e
        | .ok s3 => .ok { s3 with
            log := Event.tokensRequested user s1.tokensPerRequest time :: s3.log }

/-- The state produced by a successful requestTokens call, written out field
by field: the reset applied when due, the three accounting updates, the
outbound transfer of tokensPerRequest to the user, and the TokensRequested
event on top of whatever the reset logged. -/
def requestSuccState (user time : Nat) (s : FaucetState) : FaucetState :=
  let s1 := resetDailyLimitIfNeeded time s
  { owner := s.owner,
    token := s.token,
    tokensPerRequest := s.tokensPerRequest,
    cooldownTime := s.cooldownTime,
    maxTokensPerAddress := s.maxTokensPerAddress,
    dailyLimit := s.dailyLimit,
    totalDistributedToday := s1.totalDistributedToday + s.tokensPerRequest,
    lastResetTime := s1.lastResetTime,
    lastRequestTime := Function.update s.lastRequestTime user time,
    totalTokensReceived := Function.update s.totalTokensReceived user
      (s.totalTokensReceived user + s.tokensPerRequest),
    blacklisted := s.blacklisted,
    paused := s.paused,
    extBal := Function.update s.extBal s.token (s.extBal s.token - s.tokensPerRequest),
    transfers := (s.token, user, s.tokensPerRequest) :: s.transfers,
    log := Event.tokensRequested user s.tokensPerRequest time :: s1.log }

/-- Left-to-right per-entry loop of batchDistribute (lines 137-143): zero
recipient check, zero amount check, safeTransfer, TokensRequested event. -/
def distributeLoop (tok time : Nat) : List Nat → List Nat → FaucetState → Except Err FaucetState
  | [], [], s => .ok s
  | r :: rs, a :: rest, s =>
      if r = 0 then .error .invalidRecipient
      else if a = 0 then .error .invalidAmount
      else match safeTransfer tok r a s with
        | .error e => .error e
        | .ok s1 =>
            distributeLoop tok time rs rest
              { s1 with log := Event.tokensRequested r a time :: s1.log }
  | _, _, _ => .error .lengthMismatch

/-- Sum of the requested batch amounts (the totalAmount loop, lines 127-130). -/
def sumAmounts : List Nat → Nat
  | [] => 0
  | a :: rest => a + sumAmounts rest

/-- batchDistribute (lines 120-144): onlyOwner, equal non-empty lengths,
aggregate balance check, then the per-entry loop. -/
def batchDistribute (caller : Nat) (recipients amounts : List Nat) (time : Nat)
    (s : FaucetState) : Except Err FaucetState :=
  if caller = s.owner then
    if recipients.length ≠ amounts.length then .error .lengthMismatch
    else if recipients.length = 0 then .error .emptyInput
    else if s.extBal s.token < sumAmounts amounts then .error .insufficientFaucetBalance
    else distributeLoop s.token time recipients amounts s
  else .error .unauthorized

/-- depositTokens (lines 150-155): positive amount, pull amount into the
custodied balance, emit TokensDeposited.  The ledger-side balance and
allowance of the depositor are outside the model. -/
def depositTokens (caller amount : Nat) (s : FaucetState) : Except Err FaucetState :=
  if amount = 0 then .error .invalidAmount
  else .ok { s with
    extBal := Function.update s.extBal s.token (s.extBal s.token + amount),
    log := Event.tokensDeposited caller amount :: s.log }

/-- withdrawTokens (lines 161-170): onlyOwner, positive amount, explicit
balance require, safeTransfer to the owner, TokensWithdrawn event. -/
def withdrawTokens (caller amount : Nat) (s : FaucetState) : Except Err FaucetState :=
  if caller = s.owner then
    if amount = 0 then .error .invalidAmount
    else if s.extBal s.token < amount then .error .insufficientFaucetBalance
    else match safeTransfer s.token s.owner amount s with
      | .error e => .error e
      | .ok s1 => .ok { s1 with log := Event.tokensWithdrawn s.owner amount :: s1.log }
  else .error .unauthorized

/-- configureFaucet (lines 175-191): onlyOwner, the three construction
invariants, then replace the four configuration fields and emit
FaucetConfigured. -/
def configureFaucet (caller tpr cd maxT dl : Nat) (s : FaucetState) : Except Err FaucetState :=
  if caller = s.owner then
    if tpr = 0 then .error .invalidConfig
    else if maxT < tpr then .error .invalidConfig
    else if dl < tpr then .error .invalidConfig
    else .ok { s with
      tokensPerRequest := tpr,
      cooldownTime := cd,
      maxTokensPerAddress := maxT,
      dailyLimit := dl,
      log := Event.faucetConfigured tpr cd maxT dl :: s.log }
  else .error .unauthorized

/-- pause (lines 196-198); the OpenZeppelin _pause reverts when already
paused. -/
def pause (caller : Nat) (s : FaucetState) : Except Err FaucetState :=
  if caller = s.owner then
    if s.paused then .error .paused
    else .ok { s with paused := true }
  else .error .unauthorized

/-- unpause (lines 203-205); the OpenZeppelin _unpause reverts when not
paused. -/
def unpause (caller : Nat) (s : FaucetState) : Except Err FaucetState :=
  if caller = s.owner then
    if s.paused then .ok { s with paused := false }
    else .error .notPaused
  else .error .unauthorized

/-- setBlacklisted (lines 212-216): onlyOwner, non-zero address, set flag,
emit UserBlacklisted. -/
def setBlacklisted (caller user : Nat) (status : Bool) (s : FaucetState) :
    Except Err FaucetState :=
  if caller = s.owner then
    if user = 0 then .error .invalidAddress
    else .ok { s with
      blacklisted := Function.update s.blacklisted user status,
      log := Event.userBlacklisted user status :: s.log }
  else .error .unauthorized

/-- External resetDailyLimit (lines 221-223): onlyOwner wrapper around the
internal reset. -/
def resetDailyLimitExternal (caller time : Nat) (s : FaucetState) : Except Err FaucetState :=
  if caller = s.owner then .ok (resetDailyLimit time s) else .error .unauthorized

/-- emergencyWithdraw (lines 230-236): onlyOwner, non-zero token address,
positive amount, then safeTransfer on the given ledger straight to the owner
(no explicit faucet-balance require), EmergencyWithdraw event. -/
def emergencyWithdraw (caller tokenAddress amount : Nat) (s : FaucetState) :
    Except Err FaucetState :=
  if caller = s.owner then
    if tokenAddress = 0 then .error .invalidAddress
    else if amount = 0 then .error .invalidAmount
    else match safeTransfer tokenAddress s.owner amount s with
      | .error e => .error e
      | .ok s1 => .ok { s1 with log := Event.emergencyWithdraw tokenAddress amount :: s1.log }
  else .error .unauthorized

/-- Internal _canUserRequest (lines 338-356), in source order: pause or
blacklist, cooldown, per-address cap, daily cap on the current running
total, faucet balance. -/
def canUserRequest (user time : Nat) (s : FaucetState) : Bool :=
  if s.paused || s.blacklisted user then false
  else if time < s.lastRequestTime user + s.cooldownTime then false
  else if s.maxTokensPerAddress < s.totalTokensReceived user + s.tokensPerRequest then false
  else if s.dailyLimit < s.totalDistributedToday + s.tokensPerRequest then false
  else decide (s.tokensPerRequest ≤ s.extBal s.token)

/-- getUserInfo (lines 258-275): total received, last request time, the
canRequestNow flag, seconds until the next request is allowed. -/
def getUserInfo (user time : Nat) (s : FaucetState) : Nat × Nat × Bool × Nat :=
  (s.totalTokensReceived user,
   s.lastRequestTime user,
   canUserRequest user time s,
   if time < s.lastRequestTime user + s.cooldownTime then
     s.lastRequestTime user + s.cooldownTime - time
   else 0)

/-- The constructor (lines 63-83): validates the token address and the three
configuration invariants, zero counters, epoch start at deployment time,
empty user records, no custodied funds, FaucetConfigured emitted. -/
def deployFaucet (deployer tokenAddress tpr cd maxT dl time : Nat) :
    Except Err FaucetState :=
  if tokenAddress = 0 then .error .invalidConfig
  else if tpr = 0 then .error .invalidConfig
  else if maxT < tpr then .error .invalidConfig
  else if dl < tpr then .error .invalidConfig
  else .ok {
    owner := deployer,
    token := tokenAddress,
    tokensPerRequest := tpr,
    cooldownTime := cd,
    maxTokensPerAddress := maxT,
    dailyLimit := dl,
    totalDistributedToday := 0,
    lastResetTime := time,
    lastRequestTime := fun _ => 0,
    totalTokensReceived := fun _ => 0,
    blacklisted := fun _ => false,
    paused := false,
    extBal := fun _ => 0,
    transfers := [],
    log := [Event.faucetConfigured tpr cd maxT dl] }

/-- One top-level controller invocation, with its caller, arguments and the
block timestamp of the transaction. -/
inductive Op where
  | requestTokens (user origin time : Nat)
  | batchDistribute (caller : Nat) (recipients amounts : List Nat) (time : Nat)
  | depositTokens (caller amount : Nat)
  | withdrawTokens (caller amount : Nat)
  | configureFaucet (caller tpr cd maxT dl : Nat)
  | pause (caller : Nat)
  | unpause (caller : Nat)
  | setBlacklisted (caller user : Nat) (status : Bool)
  | resetDailyLimit (caller time : Nat)
  | emergencyWithdraw (caller tokenAddress amount : Nat)

/-- Dispatch an operation to the contract function it invokes. -/
def applyOp : Op → FaucetState → Except Err FaucetState
  | Op.requestTokens user origin time, s => requestTokens user origin time s
  | Op.batchDistribute caller recipients amounts time, s =>
      batchDistribute caller recipients amounts time s
  | Op.depositTokens caller amount, s => depositTokens caller amount s
  | Op.withdrawTokens caller amount, s => withdrawTokens caller amount s
  | Op.configureFaucet caller tpr cd maxT dl, s => configureFaucet caller tpr cd maxT dl s
  | Op.pause caller, s => pause caller s
  | Op.unpause caller, s => unpause caller s
  | Op.setBlacklisted caller user status, s => setBlacklisted caller user status s
  | Op.resetDailyLimit caller time, s => resetDailyLimitExternal caller time s
  | Op.emergencyWithdraw caller tokenAddress amount, s =>
      emergencyWithdraw caller tokenAddress amount s

/-- Transaction semantics of the host chain: a failed operation reverts and
the pre-call state is kept. -/
def exec (op : Op) (s : FaucetState) : FaucetState :=
  match applyOp op s with
  | .ok s1 => s1
  | .error _ => s

/-- Run a sequence of top-level invocations in order. -/
def execSeq : List Op → FaucetState → FaucetState
  | [], s => s
  | op :: rest, s => execSeq rest (exec op s)

/-- Whether a call completed without reverting. -/
def succeeds (e : Except Err FaucetState) : Bool :=
  match e with
  | .ok _ => true
  | .error _ => false

/-- Per-entry validity of a batch: every recipient non-zero and every amount
non-zero, positionally (the two requires inside the loop, lines 138-139). -/
def entriesOk : List Nat → List Nat → Bool
  | [], [] => true
  | r :: rs, a :: rest => (!(r == 0) && !(a == 0)) && entriesOk rs rest
  | _, _ => false

/-- Modelled from the spec: the eligibility conjunction the specification
ascribes to canRequestNow, namely requestTokens checks 1 to 5 and 7 to 8 for
a direct call by the user (for a direct call the originator check compares
the user with itself), with the daily cap evaluated against the current
running total and no reset performed.  Stated from the specification text
for comparison with the canUserRequest code path. -/
def eligibleNoReset (user origin time : Nat) (s : FaucetState) : Bool :=
  !s.paused && (user == origin) && !s.blacklisted user &&
  decide (s.lastRequestTime user + s.cooldownTime ≤ time) &&
  decide (s.totalTokensReceived user + s.tokensPerRequest ≤ s.maxTokensPerAddress) &&
  decide (s.totalDistributedToday + s.tokensPerRequest ≤ s.dailyLimit) &&
  decide (s.tokensPerRequest ≤ s.extBal s.token)

/-- Side condition on a single operation: when it is a reconfiguration, the
new daily limit is at least the running total accumulated so far. -/
def cfgDailyOk (op : Op) (s : FaucetState) : Bool :=
  match op with
  | Op.configureFaucet _ _ _ _ dl => decide (s.totalDistributedToday ≤ dl)
  | _ => true

/-- A sequence of operations never reconfigures the daily limit below the
running total at the moment of the reconfiguration. -/
def respectsDailyCap : List Op → FaucetState → Bool
  | [], _ => true
  | op :: rest, s => cfgDailyOk op s && respectsDailyCap rest (exec op s)

/-- Side condition on a single operation for a fixed address a: when it is a
reconfiguration, the new per-address cap is at least the lifetime total a
has already received. -/
def cfgAddrOk (a : Nat) (op : Op) (s : FaucetState) : Bool :=
  match op with
  | Op.configureFaucet _ _ _ maxT _ => decide (s.totalTokensReceived a ≤ maxT)
  | _ => true

/-- A sequence of operations never reconfigures the per-address cap below
the lifetime total address a has already received at that moment. -/
def respectsAddrCap (a : Nat) : List Op → FaucetState → Bool
  | [], _ => true
  | op :: rest, s => cfgAddrOk a op s && respectsAddrCap a rest (exec op s)

/-- A concrete running faucet used by the witnesses: owner 1, token ledger
at address 7, 10 tokens per request, 3600 s cooldown, lifetime cap 100,
daily limit 1000, custodied balance 5000 (the concrete scenario of the
specification, section 8). -/
def s0 : FaucetState :=
  { owner := 1, token := 7, tokensPerRequest := 10, cooldownTime := 3600,
    maxTokensPerAddress := 100, dailyLimit := 1000, totalDistributedToday := 0,
    lastResetTime := 0, lastRequestTime := fun _ => 0,
    totalTokensReceived := fun _ => 0, blacklisted := fun _ => false,
    paused := false, extBal := fun a => if a = 7 then 5000 else 0,
    transfers := [], log := [] }

/-- The freshly deployed faucet with daily limit 10, as the constructor
returns it at deployment time 0. -/
def c1s0 : FaucetState :=
  { owner := 1, token := 7, tokensPerRequest := 10, cooldownTime := 0,
    maxTokensPerAddress := 100, dailyLimit := 10, totalDistributedToday := 0,
    lastResetTime := 0, lastRequestTime := fun _ => 0,
    totalTokensReceived := fun _ => 0, blacklisted := fun _ => false,
    paused := false, extBal := fun _ => 0,
    transfers := [], log := [Event.faucetConfigured 10 0 100 10] }

/-- The freshly deployed faucet with per-address cap 10, as the constructor
returns it at deployment time 0. -/
def c2s0 : FaucetState :=
  { owner := 1, token := 7, tokensPerRequest := 10, cooldownTime := 0,
    maxTokensPerAddress := 10, dailyLimit := 1000, totalDistributedToday := 0,
    lastResetTime := 0, lastRequestTime := fun _ => 0,
    totalTokensReceived := fun _ => 0, blacklisted := fun _ => false,
    paused := false, extBal := fun _ => 0,
    transfers := [], log := [Event.faucetConfigured 10 0 10 1000] }

/-- The running faucet with only 5 custodied tokens in its own ledger. -/
def c7s : FaucetState :=
  { s0 with extBal := fun a => if a = 7 then 5 else 0 }

/-- The running faucet one full stale epoch later: the daily total stands at
the limit (1000) and no reset has happened since time 0. -/
def c3s : FaucetState :=
  { s0 with totalDistributedToday := 1000 }

/-- Post-state of a successful request by user 2 at time 4000 from s0. -/
def c3post : FaucetState := exec (Op.requestTokens 2 2 4000) s0

/-- Post-state of a successful request by user 2 at time 10000 from s0. -/
def c4post : FaucetState := exec (Op.requestTokens 2 2 10000) s0

/-- Post-state of the batch distribution of 50 and 75 tokens to users 2 and
3 at time 5 from s0. -/
def c8post : FaucetState := exec (Op.batchDistribute 1 [2, 3] [50, 75] 5) s0

/-- The running faucet with 500 tokens already distributed in the current
epoch. -/
def c9s : FaucetState :=
  { s0 with totalDistributedToday := 500 }

/-- Post-state of reconfiguring c9s to a daily limit of 30, below the 500
already distributed. -/
def c9post : FaucetState := exec (Op.configureFaucet 1 10 60 30 30) c9s

theorem resetIfNeeded_owner (t : Nat) (s : FaucetState) :
    (resetDailyLimitIfNeeded t s).owner = s.owner := by
  unfold resetDailyLimitIfNeeded resetDailyLimit; split <;> rfl

theorem resetIfNeeded_token (t : Nat) (s : FaucetState) :
    (resetDailyLimitIfNeeded t s).token = s.token := by
  unfold resetDailyLimitIfNeeded resetDailyLimit; split <;> rfl

theorem resetIfNeeded_tokensPerRequest (t : Nat) (s : FaucetState) :
    (resetDailyLimitIfNeeded t s).tokensPerRequest = s.tokensPerRequest := by
  unfold resetDailyLimitIfNeeded resetDailyLimit; split <;> rfl

theorem resetIfNeeded_cooldownTime (t : Nat) (s : FaucetState) :
    (resetDailyLimitIfNeeded t s).cooldownTime = s.cooldownTime := by
  unfold resetDailyLimitIfNeeded resetDailyLimit; split <;> rfl

theorem resetIfNeeded_maxTokensPerAddress (t : Nat) (s : FaucetState) :
    (resetDailyLimitIfNeeded t s).maxTokensPerAddress = s.maxTokensPerAddress := by
  unfold resetDailyLimitIfNeeded resetDailyLimit; split <;> rfl

theorem resetIfNeeded_dailyLimit (t : Nat) (s : FaucetState) :
    (resetDailyLimitIfNeeded t s).dailyLimit = s.dailyLimit := by
  unfold resetDailyLimitIfNeeded resetDailyLimit; split <;> rfl

theorem resetIfNeeded_lastRequestTime (t : Nat) (s : FaucetState) :
    (resetDailyLimitIfNeeded t s).lastRequestTime = s.lastRequestTime := by
  unfold resetDailyLimitIfNeeded resetDailyLimit; split <;> rfl

theorem resetIfNeeded_totalTokensReceived (t : Nat) (s : FaucetState) :
    (resetDailyLimitIfNeeded t s).totalTokensReceived = s.totalTokensReceived := by
  unfold resetDailyLimitIfNeeded resetDailyLimit; split <;> rfl

theorem resetIfNeeded_blacklisted (t : Nat) (s : FaucetState) :
    (resetDailyLimitIfNeeded t s).blacklisted = s.blacklisted := by
  unfold resetDailyLimitIfNeeded resetDailyLimit; split <;> rfl

theorem resetIfNeeded_paused (t : Nat) (s : FaucetState) :
    (resetDailyLimitIfNeeded t s).paused = s.paused := by
  unfold resetDailyLimitIfNeeded resetDailyLimit; split <;> rfl

theorem resetIfNeeded_extBal (t : Nat) (s : FaucetState) :
    (resetDailyLimitIfNeeded t s).extBal = s.extBal := by
  unfold resetDailyLimitIfNeeded resetDailyLimit; split <;> rfl

theorem resetIfNeeded_transfers (t : Nat) (s : FaucetState) :
    (resetDailyLimitIfNeeded t s).transfers = s.transfers := by
  unfold resetDailyLimitIfNeeded resetDailyLimit; split <;> rfl

theorem resetIfNeeded_due {t : Nat} {s : FaucetState} (h : s.lastResetTime + 86400 ≤ t) :
    resetDailyLimitIfNeeded t s = resetDailyLimit t s := by
  unfold resetDailyLimitIfNeeded; rw [if_pos h]

theorem resetIfNeeded_notDue {t : Nat} {s : FaucetState} (h : t < s.lastResetTime + 86400) :
    resetDailyLimitIfNeeded t s = s := by
  unfold resetDailyLimitIfNeeded; rw [if_neg (Nat.not_le.mpr h)]

theorem safeTransfer_ok {tok dst amount : Nat} {s : FaucetState}
    (h : amount ≤ s.extBal tok) :
    safeTransfer tok dst amount s = .ok { s with
      extBal := Function.update s.extBal tok (s.extBal tok - amount),
      transfers := (tok, dst, amount) :: s.transfers } := by
  unfold safeTransfer; rw [if_neg (Nat.not_lt.mpr h)]

theorem safeTransfer_short {tok dst amount : Nat} {s : FaucetState}
    (h : s.extBal tok < amount) :
    safeTransfer tok dst amount s = .error .ledgerTransferFailed := by
  unfold safeTransfer; rw [if_pos h]

theorem validateRequest_none_iff {user origin time : Nat} {s : FaucetState} :
    validateRequest user origin time s = none ↔
    user = origin ∧ s.blacklisted user = false ∧
    s.lastRequestTime user + s.cooldownTime ≤ time ∧
    s.totalTokensReceived user + s.tokensPerRequest ≤ s.maxTokensPerAddress := by
  unfold validateRequest
  split_ifs with h1 h2 h3 h4 <;> simp_all

theorem applyRequestAccounting_extBal (user time : Nat) (s : FaucetState) :
    (applyRequestAccounting user time s).extBal = s.extBal := rfl

/-- When all eight checks pass for a direct call, requestTokens succeeds and
produces exactly requestSuccState. -/
theorem requestTokens_ok (user time : Nat) (s : FaucetState)
    (hp : s.paused = false) (hb : s.blacklisted user = false)
    (hcd : s.lastRequestTime user + s.cooldownTime ≤ time)
    (hcap : s.totalTokensReceived user + s.tokensPerRequest ≤ s.maxTokensPerAddress)
    (hdl : (resetDailyLimitIfNeeded time s).totalDistributedToday + s.tokensPerRequest
            ≤ s.dailyLimit)
    (hbal : s.tokensPerRequest ≤ s.extBal s.token) :
    requestTokens user user time s = .ok (requestSuccState user time s) := by
  have hp' : ¬(s.paused = true) := by simp [hp]
  have hv : validateRequest user user time s = none :=
    validateRequest_none_iff.mpr ⟨rfl, hb, hcd, hcap⟩
  by_cases hdue : s.lastResetTime + 86400 ≤ time
  · unfold requestTokens requestSuccState
    rw [if_neg hp', hv, resetIfNeeded_due hdue]
    rw [resetIfNeeded_due hdue] at hdl
    dsimp only [resetDailyLimit, applyRequestAccounting]
    dsimp only [resetDailyLimit] at hdl
    rw [if_neg (Nat.not_lt.mpr hdl), if_neg (Nat.not_lt.mpr hbal)]
    unfold safeTransfer
    dsimp only
    rw [if_neg (Nat.not_lt.mpr hbal)]
  · unfold requestTokens requestSuccState
    rw [if_neg hp', hv, resetIfNeeded_notDue (Nat.not_le.mp hdue)]
    rw [resetIfNeeded_notDue (Nat.not_le.mp hdue)] at hdl
    dsimp only [applyRequestAccounting]
    rw [if_neg (Nat.not_lt.mpr hdl), if_neg (Nat.not_lt.mpr hbal)]
    unfold safeTransfer
    dsimp only
    rw [if_neg (Nat.not_lt.mpr hbal)]

/-- Inversion of a successful requestTokens call: every check passed and the
result is requestSuccState. -/
theorem requestTokens_ok_inv {user origin time : Nat} {s s' : FaucetState}
    (h : requestTokens user origin time s = .ok s') :
    s.paused = false ∧ user = origin ∧ s.blacklisted user = false ∧
    s.lastRequestTime user + s.cooldownTime ≤ time ∧
    s.totalTokensReceived user + s.tokensPerRequest ≤ s.maxTokensPerAddress ∧
    (resetDailyLimitIfNeeded time s).totalDistributedToday + s.tokensPerRequest
      ≤ s.dailyLimit ∧
    s.tokensPerRequest ≤ s.extBal s.token ∧
    s' = requestSuccState user time s := by
  have h0 := h
  unfold requestTokens at h
  by_cases hp : s.paused = true
  · rw [if_pos hp] at h; exact absurd h (by simp)
  rw [if_neg hp] at h
  cases hv : validateRequest user origin time s with
  | some e => rw [hv] at h; exact absurd h (by simp)
  | none =>
    obtain ⟨ho, hb, hcd, hcap⟩ := validateRequest_none_iff.mp hv
    rw [hv] at h
    dsimp only at h
    by_cases hdl : (resetDailyLimitIfNeeded time s).dailyLimit <
        (resetDailyLimitIfNeeded time s).totalDistributedToday +
        (resetDailyLimitIfNeeded time s).tokensPerRequest
    · rw [if_pos hdl] at h; exact absurd h (by simp)
    rw [if_neg hdl] at h
    by_cases hbal : (resetDailyLimitIfNeeded time s).extBal
        (resetDailyLimitIfNeeded time s).token <
        (resetDailyLimitIfNeeded time s).tokensPerRequest
    · rw [if_pos hbal] at h; exact absurd h (by simp)
    rw [resetIfNeeded_dailyLimit, resetIfNeeded_tokensPerRequest] at hdl
    rw [resetIfNeeded_extBal, resetIfNeeded_token, resetIfNeeded_tokensPerRequest] at hbal
    have hdl' := Nat.not_lt.mp hdl
    have hbal' := Nat.not_lt.mp hbal
    subst ho
    have hok := requestTokens_ok user time s (Bool.not_eq_true s.paused ▸ hp) hb hcd hcap hdl' hbal'
    have hss' : Except.ok (ε := Err) (requestSuccState user time s) = .ok s' :=
      hok.symm.trans h0
    exact ⟨Bool.not_eq_true s.paused ▸ hp, rfl, hb, hcd, hcap, hdl', hbal',
      (Except.ok.inj hss').symm⟩

/-- For a direct, non-paused, non-blacklisted caller inside the cooldown
window, requestTokens fails with the cooldown error. -/
theorem requestTokens_cooldown_error {user time : Nat} {s : FaucetState}
    (hp : s.paused = false) (hb : s.blacklisted user = false)
    (hcd : time < s.lastRequestTime user + s.cooldownTime) :
    requestTokens user user time s = .error .cooldownActive := by
  have hv : validateRequest user user time s = some .cooldownActive := by
    unfold validateRequest
    rw [if_neg (by simp), if_neg (by simp [hb]), if_pos hcd]
  unfold requestTokens
  rw [if_neg (by simp [hp]), hv]

theorem depositTokens_ok_inv {caller amount : Nat} {s s' : FaucetState}
    (h : depositTokens caller amount s = .ok s') :
    amount ≠ 0 ∧
    s' = { s with
      extBal := Function.update s.extBal s.token (s.extBal s.token + amount),
      log := Event.tokensDeposited caller amount :: s.log } := by
  unfold depositTokens at h
  by_cases h1 : amount = 0
  · rw [if_pos h1] at h; exact absurd h (by simp)
  · rw [if_neg h1] at h; exact ⟨h1, (Except.ok.inj h).symm⟩

theorem withdrawTokens_ok_inv {caller amount : Nat} {s s' : FaucetState}
    (h : withdrawTokens caller amount s = .ok s') :
    caller = s.owner ∧ amount ≠ 0 ∧ amount ≤ s.extBal s.token ∧
    s' = { s with
      extBal := Function.update s.extBal s.token (s.extBal s.token - amount),
      transfers := (s.token, s.owner, amount) :: s.transfers,
      log := Event.tokensWithdrawn s.owner amount :: s.log } := by
  unfold withdrawTokens at h
  by_cases h1 : caller = s.owner
  · rw [if_pos h1] at h
    by_cases h2 : amount = 0
    · rw [if_pos h2] at h; exact absurd h (by simp)
    rw [if_neg h2] at h
    by_cases h3 : s.extBal s.token < amount
    · rw [if_pos h3] at h; exact absurd h (by simp)
    rw [if_neg h3, safeTransfer_ok (Nat.not_lt.mp h3)] at h
    dsimp only at h
    exact ⟨h1, h2, Nat.not_lt.mp h3, (Except.ok.inj h).symm⟩
  · rw [if_neg h1] at h; exact absurd h (by simp)

theorem configureFaucet_ok_inv {caller tpr cd maxT dl : Nat} {s s' : FaucetState}
    (h : configureFaucet caller tpr cd maxT dl s = .ok s') :
    caller = s.owner ∧ tpr ≠ 0 ∧ tpr ≤ maxT ∧ tpr ≤ dl ∧
    s' = { s with
      tokensPerRequest := tpr, cooldownTime := cd,
      maxTokensPerAddress := maxT, dailyLimit := dl,
      log := Event.faucetConfigured tpr cd maxT dl :: s.log } := by
  unfold configureFaucet at h
  by_cases h1 : caller = s.owner
  · rw [if_pos h1] at h
    by_cases h2 : tpr = 0
    · rw [if_pos h2] at h; exact absurd h (by simp)
    rw [if_neg h2] at h
    by_cases h3 : maxT < tpr
    · rw [if_pos h3] at h; exact absurd h (by simp)
    rw [if_neg h3] at h
    by_cases h4 : dl < tpr
    · rw [if_pos h4] at h; exact absurd h (by simp)
    rw [if_neg h4] at h
    exact ⟨h1, h2, Nat.not_lt.mp h3, Nat.not_lt.mp h4, (Except.ok.inj h).symm⟩
  · rw [if_neg h1] at h; exact absurd h (by simp)

theorem pause_ok_inv {caller : Nat} {s s' : FaucetState}
    (h : pause caller s = .ok s') :
    caller = s.owner ∧ s.paused = false ∧ s' = { s with paused := true } := by
  unfold pause at h
  by_cases h1 : caller = s.owner
  · rw [if_pos h1] at h
    by_cases h2 : s.paused = true
    · rw [if_pos h2] at h; exact absurd h (by simp)
    · rw [if_neg h2] at h
      exact ⟨h1, Bool.not_eq_true s.paused ▸ h2, (Except.ok.inj h).symm⟩
  · rw [if_neg h1] at h; exact absurd h (by simp)

theorem unpause_ok_inv {caller : Nat} {s s' : FaucetState}
    (h : unpause caller s = .ok s') :
    caller = s.owner ∧ s.paused = true ∧ s' = { s with paused := false } := by
  unfold unpause at h
  by_cases h1 : caller = s.owner
  · rw [if_pos h1] at h
    by_cases h2 : s.paused = true
    · rw [if_pos h2] at h; exact ⟨h1, h2, (Except.ok.inj h).symm⟩
    · rw [if_neg h2] at h; exact absurd h (by simp)
  · rw [if_neg h1] at h; exact absurd h (by simp)

theorem setBlacklisted_ok_inv {caller user : Nat} {status : Bool} {s s' : FaucetState}
    (h : setBlacklisted caller user status s = .ok s') :
    caller = s.owner ∧ user ≠ 0 ∧
    s' = { s with
      blacklisted := Function.update s.blacklisted user status,
      log := Event.userBlacklisted user status :: s.log } := by
  unfold setBlacklisted at h
  by_cases h1 : caller = s.owner
  · rw [if_pos h1] at h
    by_cases h2 : user = 0
    · rw [if_pos h2] at h; exact absurd h (by simp)
    · rw [if_neg h2] at h; exact ⟨h1, h2, (Except.ok.inj h).symm⟩
  · rw [if_neg h1] at h; exact absurd h (by simp)

theorem resetDailyLimitExternal_ok_inv {caller time : Nat} {s s' : FaucetState}
    (h : resetDailyLimitExternal caller time s = .ok s') :
    caller = s.owner ∧ s' = resetDailyLimit time s := by
  unfold resetDailyLimitExternal at h
  by_cases h1 : caller = s.owner
  · rw [if_pos h1] at h; exact ⟨h1, (Except.ok.inj h).symm⟩
  · rw [if_neg h1] at h; exact absurd h (by simp)

theorem emergencyWithdraw_ok_inv {caller tokenAddress amount : Nat} {s s' : FaucetState}
    (h : emergencyWithdraw caller tokenAddress amount s = .ok s') :
    caller = s.owner ∧ tokenAddress ≠ 0 ∧ amount ≠ 0 ∧ amount ≤ s.extBal tokenAddress ∧
    s' = { s with
      extBal := Function.update s.extBal tokenAddress (s.extBal tokenAddress - amount),
      transfers := (tokenAddress, s.owner, amount) :: s.transfers,
      log := Event.emergencyWithdraw tokenAddress amount :: s.log } := by
  unfold emergencyWithdraw at h
  by_cases h1 : caller = s.owner
  · rw [if_pos h1] at h
    by_cases h2 : tokenAddress = 0
    · rw [if_pos h2] at h; exact absurd h (by simp)
    rw [if_neg h2] at h
    by_cases h3 : amount = 0
    · rw [if_pos h3] at h; exact absurd h (by simp)
    rw [if_neg h3] at h
    by_cases h4 : s.extBal tokenAddress < amount
    · rw [safeTransfer_short h4] at h; exact absurd h (by simp)
    rw [safeTransfer_ok (Nat.not_lt.mp h4)] at h
    dsimp only at h
    exact ⟨h1, h2, h3, Nat.not_lt.mp h4, (Except.ok.inj h).symm⟩
  · rw [if_neg h1] at h; exact absurd h (by simp)

theorem requestSuccState_owner (u t : Nat) (s : FaucetState) :
    (requestSuccState u t s).owner = s.owner := rfl

theorem requestSuccState_token (u t : Nat) (s : FaucetState) :
    (requestSuccState u t s).token = s.token := rfl

theorem requestSuccState_tokensPerRequest (u t : Nat) (s : FaucetState) :
    (requestSuccState u t s).tokensPerRequest = s.tokensPerRequest := rfl

theorem requestSuccState_cooldownTime (u t : Nat) (s : FaucetState) :
    (requestSuccState u t s).cooldownTime = s.cooldownTime := rfl

theorem requestSuccState_maxTokensPerAddress (u t : Nat) (s : FaucetState) :
    (requestSuccState u t s).maxTokensPerAddress = s.maxTokensPerAddress := rfl

theorem requestSuccState_dailyLimit (u t : Nat) (s : FaucetState) :
    (requestSuccState u t s).dailyLimit = s.dailyLimit := rfl

theorem requestSuccState_totalDistributedToday (u t : Nat) (s : FaucetState) :
    (requestSuccState u t s).totalDistributedToday =
    (resetDailyLimitIfNeeded t s).totalDistributedToday + s.tokensPerRequest := rfl

theorem requestSuccState_lastResetTime (u t : Nat) (s : FaucetState) :
    (requestSuccState u t s).lastResetTime =
    (resetDailyLimitIfNeeded t s).lastResetTime := rfl

theorem requestSuccState_lastRequestTime (u t : Nat) (s : FaucetState) :
    (requestSuccState u t s).lastRequestTime =
    Function.update s.lastRequestTime u t := rfl

theorem requestSuccState_totalTokensReceived (u t : Nat) (s : FaucetState) :
    (requestSuccState u t s).totalTokensReceived =
    Function.update s.totalTokensReceived u
      (s.totalTokensReceived u + s.tokensPerRequest) := rfl

theorem requestSuccState_blacklisted (u t : Nat) (s : FaucetState) :
    (requestSuccState u t s).blacklisted = s.blacklisted := rfl

theorem requestSuccState_paused (u t : Nat) (s : FaucetState) :
    (requestSuccState u t s).paused = s.paused := rfl

theorem requestSuccState_extBal (u t : Nat) (s : FaucetState) :
    (requestSuccState u t s).extBal =
    Function.update s.extBal s.token (s.extBal s.token - s.tokensPerRequest) := rfl

theorem requestSuccState_log (u t : Nat) (s : FaucetState) :
    (requestSuccState u t s).log =
    Event.tokensRequested u s.tokensPerRequest t ::
      (resetDailyLimitIfNeeded t s).log := rfl

theorem succeeds_ok {s' : FaucetState} {e : Except Err FaucetState}
    (h : e = .ok s') : succeeds e = true := by
  rw [h]; rfl

theorem succeeds_iff_ok {e : Except Err FaucetState} :
    succeeds e = true ↔ ∃ s', e = .ok s' := by
  cases e with
  | error err => simp [succeeds]
  | ok s' => simp [succeeds]

/-- The batch loop never touches the configuration, the counters, the user
records or the pause flag: only extBal, transfers and log change. -/
theorem distributeLoop_frame {tok time : Nat} :
    ∀ (rs rest : List Nat) (s s' : FaucetState),
      distributeLoop tok time rs rest s = .ok s' →
      s'.owner = s.owner ∧ s'.token = s.token ∧
      s'.tokensPerRequest = s.tokensPerRequest ∧
      s'.cooldownTime = s.cooldownTime ∧
      s'.maxTokensPerAddress = s.maxTokensPerAddress ∧
      s'.dailyLimit = s.dailyLimit ∧
      s'.totalDistributedToday = s.totalDistributedToday ∧
      s'.lastResetTime = s.lastResetTime ∧
      s'.lastRequestTime = s.lastRequestTime ∧
      s'.totalTokensReceived = s.totalTokensReceived ∧
      s'.blacklisted = s.blacklisted ∧
      s'.paused = s.paused := by
  intro rs
  induction rs with
  | nil =>
    intro rest s s' h
    cases rest with
    | nil =>
      simp only [distributeLoop] at h
      rw [← Except.ok.inj h]
      exact ⟨rfl, rfl, rfl, rfl, rfl, rfl, rfl, rfl, rfl, rfl, rfl, rfl⟩
    | cons a rest1 =>
      simp only [distributeLoop] at h
      exact absurd h (by simp)
  | cons r rs ih =>
    intro rest s s' h
    cases rest with
    | nil =>
      simp only [distributeLoop] at h
      exact absurd h (by simp)
    | cons a rest1 =>
      simp only [distributeLoop] at h
      by_cases h1 : r = 0
      · rw [if_pos h1] at h; exact absurd h (by simp)
      rw [if_neg h1] at h
      by_cases h2 : a = 0
      · rw [if_pos h2] at h; exact absurd h (by simp)
      rw [if_neg h2] at h
      by_cases h3 : s.extBal tok < a
      · rw [safeTransfer_short h3] at h; exact absurd h (by simp)
      rw [safeTransfer_ok (Nat.not_lt.mp h3)] at h
      dsimp only at h
      have hx := ih rest1 _ s' h
      exact hx

/-- Under the aggregate balance precondition the loop succeeds exactly when
every entry is valid. -/
theorem distributeLoop_isOk {tok time : Nat} :
    ∀ (rs rest : List Nat) (s : FaucetState),
      rs.length = rest.length →
      sumAmounts rest ≤ s.extBal tok →
      succeeds (distributeLoop tok time rs rest s) = entriesOk rs rest := by
  intro rs
  induction rs with
  | nil =>
    intro rest s hlen hbal
    cases rest with
    | nil => rfl
    | cons a rest1 => simp at hlen
  | cons r rs ih =>
    intro rest s hlen hbal
    cases rest with
    | nil => simp at hlen
    | cons a rest1 =>
      simp only [distributeLoop, entriesOk]
      by_cases h1 : r = 0
      · rw [if_pos h1]
        subst h1
        simp [succeeds]
      rw [if_neg h1]
      by_cases h2 : a = 0
      · rw [if_pos h2]
        subst h2
        simp [succeeds]
      rw [if_neg h2]
      have hsum : a + sumAmounts rest1 ≤ s.extBal tok := hbal
      have ha : a ≤ s.extBal tok := le_trans (Nat.le_add_right a _) hsum
      rw [safeTransfer_ok ha]
      dsimp only
      have hbal1 : sumAmounts rest1 ≤
          (Function.update s.extBal tok (s.extBal tok - a)) tok := by
        rw [Function.update_same]; omega
      rw [ih rest1 _ (by simpa using hlen) hbal1]
      simp [h1, h2]

/-- With all recipients valid and the balance sufficient, a zero amount
anywhere in the batch makes the loop fail with the invalid-amount error. -/
theorem distributeLoop_zeroAmount {tok time : Nat} :
    ∀ (rs rest : List Nat) (s : FaucetState),
      rs.length = rest.length → (∀ x ∈ rs, x ≠ 0) → 0 ∈ rest →
      sumAmounts rest ≤ s.extBal tok →
      distributeLoop tok time rs rest s = .error .invalidAmount := by
  intro rs
  induction rs with
  | nil =>
    intro rest s hlen _ hmem _
    cases rest with
    | nil => simp at hmem
    | cons a rest1 => simp at hlen
  | cons r rs ih =>
    intro rest s hlen hall hmem hbal
    cases rest with
    | nil => simp at hlen
    | cons a rest1 =>
      simp only [distributeLoop]
      have h1 : r ≠ 0 := hall r (List.mem_cons_self r rs)
      rw [if_neg h1]
      by_cases h2 : a = 0
      · rw [if_pos h2]
      rw [if_neg h2]
      have hsum : a + sumAmounts rest1 ≤ s.extBal tok := hbal
      have ha : a ≤ s.extBal tok := le_trans (Nat.le_add_right a _) hsum
      rw [safeTransfer_ok ha]
      dsimp only
      have hmem1 : 0 ∈ rest1 := by
        cases List.mem_cons.mp hmem with
        | inl h0 => exact absurd h0.symm h2
        | inr h0 => exact h0
      have hbal1 : sumAmounts rest1 ≤
          (Function.update s.extBal tok (s.extBal tok - a)) tok := by
        rw [Function.update_same]; omega
      exact ih rest1 _ (by simpa using hlen) (fun x hx => hall x (List.mem_cons_of_mem r hx))
        hmem1 hbal1

/-- A successful batch leaves every rate-limiting field at its pre-call
value. -/
theorem batchDistribute_ok_frame {c : Nat} {r a : List Nat} {t : Nat}
    {s s' : FaucetState} (h : batchDistribute c r a t s = .ok s') :
    s'.owner = s.owner ∧ s'.token = s.token ∧
    s'.tokensPerRequest = s.tokensPerRequest ∧
    s'.cooldownTime = s.cooldownTime ∧
    s'.maxTokensPerAddress = s.maxTokensPerAddress ∧
    s'.dailyLimit = s.dailyLimit ∧
    s'.totalDistributedToday = s.totalDistributedToday ∧
    s'.lastResetTime = s.lastResetTime ∧
    s'.lastRequestTime = s.lastRequestTime ∧
    s'.totalTokensReceived = s.totalTokensReceived ∧
    s'.blacklisted = s.blacklisted ∧
    s'.paused = s.paused := by
  unfold batchDistribute at h
  by_cases h1 : c = s.owner
  · rw [if_pos h1] at h
    by_cases h2 : r.length ≠ a.length
    · rw [if_pos h2] at h; exact absurd h (by simp)
    rw [if_neg h2] at h
    by_cases h3 : r.length = 0
    · rw [if_pos h3] at h; exact absurd h (by simp)
    rw [if_neg h3] at h
    by_cases h4 : s.extBal s.token < sumAmounts a
    · rw [if_pos h4] at h; exact absurd h (by simp)
    rw [if_neg h4] at h
    exact distributeLoop_frame r a s s' h
  · rw [if_neg h1] at h; exact absurd h (by simp)

/-- batchDistribute succeeds exactly when the caller is the owner, the
arrays are equal-length and non-empty, the aggregate balance is covered and
every entry is valid: no cooldown, cap, daily, blacklist or pause condition
appears. -/
theorem batchDistribute_succeeds_iff {c : Nat} {r a : List Nat} {t : Nat}
    {s : FaucetState} :
    succeeds (batchDistribute c r a t s) = true ↔
    (c = s.owner ∧ r.length = a.length ∧ r ≠ [] ∧
     sumAmounts a ≤ s.extBal s.token ∧ entriesOk r a = true) := by
  unfold batchDistribute
  by_cases h1 : c = s.owner
  · rw [if_pos h1]
    by_cases h2 : r.length ≠ a.length
    · rw [if_pos h2]
      simp only [succeeds]
      constructor
      · intro h; exact absurd h (by simp)
      · intro h; exact absurd h.2.1 h2
    rw [if_neg h2]
    have hlen : r.length = a.length := not_ne_iff.mp h2
    by_cases h3 : r.length = 0
    · rw [if_pos h3]
      simp only [succeeds]
      constructor
      · intro h; exact absurd h (by simp)
      · intro h; exact absurd (List.length_eq_zero.mp h3) h.2.2.1
    rw [if_neg h3]
    by_cases h4 : s.extBal s.token < sumAmounts a
    · rw [if_pos h4]
      simp only [succeeds]
      constructor
      · intro h; exact absurd h (by simp)
      · intro h; exact absurd h.2.2.2.1 (Nat.not_le.mpr h4)
    rw [if_neg h4]
    rw [distributeLoop_isOk r a s hlen (Nat.not_lt.mp h4)]
    constructor
    · intro h
      exact ⟨h1, hlen, fun hr => h3 (by rw [hr]; rfl), Nat.not_lt.mp h4, h⟩
    · intro h; exact h.2.2.2.2
  · rw [if_neg h1]
    simp only [succeeds]
    constructor
    · intro h; exact absurd h (by simp)
    · intro h; exact absurd h.1 h1

theorem exec_op_requestTokens (u o t : Nat) (s : FaucetState) :
    exec (Op.requestTokens u o t) s =
      match requestTokens u o t s with | .ok s1 => s1 | .error _ => s := rfl

theorem exec_op_batchDistribute (c : Nat) (r a : List Nat) (t : Nat) (s : FaucetState) :
    exec (Op.batchDistribute c r a t) s =
      match batchDistribute c r a t s with | .ok s1 => s1 | .error _ => s := rfl

theorem exec_op_depositTokens (c amt : Nat) (s : FaucetState) :
    exec (Op.depositTokens c amt) s =
      match depositTokens c amt s with | .ok s1 => s1 | .error _ => s := rfl

theorem exec_op_withdrawTokens (c amt : Nat) (s : FaucetState) :
    exec (Op.withdrawTokens c amt) s =
      match withdrawTokens c amt s with | .ok s1 => s1 | .error _ => s := rfl

theorem exec_op_configureFaucet (c tpr cd maxT dl : Nat) (s : FaucetState) :
    exec (Op.configureFaucet c tpr cd maxT dl) s =
      match configureFaucet c tpr cd maxT dl s with | .ok s1 => s1 | .error _ => s := rfl

theorem exec_op_pause (c : Nat) (s : FaucetState) :
    exec (Op.pause c) s =
      match pause c s with | .ok s1 => s1 | .error _ => s := rfl

theorem exec_op_unpause (c : Nat) (s : FaucetState) :
    exec (Op.unpause c) s =
      match unpause c s with | .ok s1 => s1 | .error _ => s := rfl

theorem exec_op_setBlacklisted (c u : Nat) (st : Bool) (s : FaucetState) :
    exec (Op.setBlacklisted c u st) s =
      match setBlacklisted c u st s with | .ok s1 => s1 | .error _ => s := rfl

theorem exec_op_resetDailyLimit (c t : Nat) (s : FaucetState) :
    exec (Op.resetDailyLimit c t) s =
      match resetDailyLimitExternal c t s with | .ok s1 => s1 | .error _ => s := rfl

theorem exec_op_emergencyWithdraw (c tok amt : Nat) (s : FaucetState) :
    exec (Op.emergencyWithdraw c tok amt) s =
      match emergencyWithdraw c tok amt s with | .ok s1 => s1 | .error _ => s := rfl

/-- One executed operation preserves the daily-cap inequality, provided a
reconfiguration never sets the daily limit below the running total. -/
theorem exec_dailyCap_step (op : Op) (s : FaucetState)
    (h : s.totalDistributedToday ≤ s.dailyLimit)
    (hc : cfgDailyOk op s = true) :
    (exec op s).totalDistributedToday ≤ (exec op s).dailyLimit := by
  cases op with
  | requestTokens u o t =>
    rw [exec_op_requestTokens]
    cases hap : requestTokens u o t s with
    | error e => exact h
    | ok s1 =>
      obtain ⟨-, -, -, -, -, hdl, -, hs⟩ := requestTokens_ok_inv hap
      subst hs
      exact hdl
  | batchDistribute c r a t =>
    rw [exec_op_batchDistribute]
    cases hap : batchDistribute c r a t s with
    | error e => exact h
    | ok s1 =>
      have hfr := batchDistribute_ok_frame hap
      show s1.totalDistributedToday ≤ s1.dailyLimit
      rw [hfr.2.2.2.2.2.2.1, hfr.2.2.2.2.2.1]
      exact h
  | depositTokens c amt =>
    rw [exec_op_depositTokens]
    cases hap : depositTokens c amt s with
    | error e => exact h
    | ok s1 =>
      obtain ⟨-, hs⟩ := depositTokens_ok_inv hap
      subst hs; exact h
  | withdrawTokens c amt =>
    rw [exec_op_withdrawTokens]
    cases hap : withdrawTokens c amt s with
    | error e => exact h
    | ok s1 =>
      obtain ⟨-, -, -, hs⟩ := withdrawTokens_ok_inv hap
      subst hs; exact h
  | configureFaucet c tpr cd maxT dl =>
    rw [exec_op_configureFaucet]
    cases hap : configureFaucet c tpr cd maxT dl s with
    | error e => exact h
    | ok s1 =>
      obtain ⟨-, -, -, -, hs⟩ := configureFaucet_ok_inv hap
      subst hs
      exact of_decide_eq_true hc
  | pause c =>
    rw [exec_op_pause]
    cases hap : pause c s with
    | error e => exact h
    | ok s1 =>
      obtain ⟨-, -, hs⟩ := pause_ok_inv hap
      subst hs; exact h
  | unpause c =>
    rw [exec_op_unpause]
    cases hap : unpause c s with
    | error e => exact h
    | ok s1 =>
      obtain ⟨-, -, hs⟩ := unpause_ok_inv hap
      subst hs; exact h
  | setBlacklisted c u st =>
    rw [exec_op_setBlacklisted]
    cases hap : setBlacklisted c u st s with
    | error e => exact h
    | ok s1 =>
      obtain ⟨-, -, hs⟩ := setBlacklisted_ok_inv hap
      subst hs; exact h
  | resetDailyLimit c t =>
    rw [exec_op_resetDailyLimit]
    cases hap : resetDailyLimitExternal c t s with
    | error e => exact h
    | ok s1 =>
      obtain ⟨-, hs⟩ := resetDailyLimitExternal_ok_inv hap
      subst hs
      exact Nat.zero_le _
  | emergencyWithdraw c tok amt =>
    rw [exec_op_emergencyWithdraw]
    cases hap : emergencyWithdraw c tok amt s with
    | error e => exact h
    | ok s1 =>
      obtain ⟨-, -, -, -, hs⟩ := emergencyWithdraw_ok_inv hap
      subst hs; exact h

/-- One executed operation preserves the per-address lifetime-cap
inequality for address a, provided a reconfiguration never sets the cap
below what a has already received. -/
theorem exec_addrCap_step (a : Nat) (op : Op) (s : FaucetState)
    (h : s.totalTokensReceived a ≤ s.maxTokensPerAddress)
    (hc : cfgAddrOk a op s = true) :
    (exec op s).totalTokensReceived a ≤ (exec op s).maxTokensPerAddress := by
  cases op with
  | requestTokens u o t =>
    rw [exec_op_requestTokens]
    cases hap : requestTokens u o t s with
    | error e => exact h
    | ok s1 =>
      obtain ⟨-, -, -, -, hcap, -, -, hs⟩ := requestTokens_ok_inv hap
      subst hs
      show (requestSuccState u t s).totalTokensReceived a ≤
        (requestSuccState u t s).maxTokensPerAddress
      rw [requestSuccState_totalTokensReceived, requestSuccState_maxTokensPerAddress,
        Function.update_apply]
      split_ifs with hau
      · exact hcap
      · exact h
  | batchDistribute c r amts t =>
    rw [exec_op_batchDistribute]
    cases hap : batchDistribute c r amts t s with
    | error e => exact h
    | ok s1 =>
      have hfr := batchDistribute_ok_frame hap
      show s1.totalTokensReceived a ≤ s1.maxTokensPerAddress
      rw [hfr.2.2.2.2.2.2.2.2.2.1, hfr.2.2.2.2.1]
      exact h
  | depositTokens c amt =>
    rw [exec_op_depositTokens]
    cases hap : depositTokens c amt s with
    | error e => exact h
    | ok s1 =>
      obtain ⟨-, hs⟩ := depositTokens_ok_inv hap
      subst hs; exact h
  | withdrawTokens c amt =>
    rw [exec_op_withdrawTokens]
    cases hap : withdrawTokens c amt s with
    | error e => exact h
    | ok s1 =>
      obtain ⟨-, -, -, hs⟩ := withdrawTokens_ok_inv hap
      subst hs; exact h
  | configureFaucet c tpr cd maxT dl =>
    rw [exec_op_configureFaucet]
    cases hap : configureFaucet c tpr cd maxT dl s with
    | error e => exact h
    | ok s1 =>
      obtain ⟨-, -, -, -, hs⟩ := configureFaucet_ok_inv hap
      subst hs
      exact of_decide_eq_true hc
  | pause c =>
    rw [exec_op_pause]
    cases hap : pause c s with
    | error e => exact h
    | ok s1 =>
      obtain ⟨-, -, hs⟩ := pause_ok_inv hap
      subst hs; exact h
  | unpause c =>
    rw [exec_op_unpause]
    cases hap : unpause c s with
    | error e => exact h
    | ok s1 =>
      obtain ⟨-, -, hs⟩ := unpause_ok_inv hap
      subst hs; exact h
  | setBlacklisted c u st =>
    rw [exec_op_setBlacklisted]
    cases hap : setBlacklisted c u st s with
    | error e => exact h
    | ok s1 =>
      obtain ⟨-, -, hs⟩ := setBlacklisted_ok_inv hap
      subst hs; exact h
  | resetDailyLimit c t =>
    rw [exec_op_resetDailyLimit]
    cases hap : resetDailyLimitExternal c t s with
    | error e => exact h
    | ok s1 =>
      obtain ⟨-, hs⟩ := resetDailyLimitExternal_ok_inv hap
      subst hs; exact h
  | emergencyWithdraw c tok amt =>
    rw [exec_op_emergencyWithdraw]
    cases hap : emergencyWithdraw c tok amt s with
    | error e => exact h
    | ok s1 =>
      obtain ⟨-, -, -, -, hs⟩ := emergencyWithdraw_ok_inv hap
      subst hs; exact h

theorem bool_eq_of_true_iff {a b : Bool} (h : (a = true) ↔ (b = true)) : a = b := by
  cases a <;> cases b <;> simp_all

theorem canUserRequest_true_iff {user time : Nat} {s : FaucetState} :
    canUserRequest user time s = true ↔
    (s.paused = false ∧ s.blacklisted user = false ∧
     s.lastRequestTime user + s.cooldownTime ≤ time ∧
     s.totalTokensReceived user + s.tokensPerRequest ≤ s.maxTokensPerAddress ∧
     s.totalDistributedToday + s.tokensPerRequest ≤ s.dailyLimit ∧
     s.tokensPerRequest ≤ s.extBal s.token) := by
  unfold canUserRequest
  split_ifs with h1 h2 h3 h4
  · simp only [Bool.or_eq_true] at h1
    constructor
    · intro hf; exact absurd hf (by simp)
    · rintro ⟨hp, hb, -⟩
      cases h1 with
      | inl hx => rw [hp] at hx; exact absurd hx (by simp)
      | inr hx => rw [hb] at hx; exact absurd hx (by simp)
  · constructor
    · intro hf; exact absurd hf (by simp)
    · rintro ⟨-, -, hcd, -⟩; exact absurd hcd (Nat.not_le.mpr h2)
  · constructor
    · intro hf; exact absurd hf (by simp)
    · rintro ⟨-, -, -, hcap, -⟩; exact absurd hcap (Nat.not_le.mpr h3)
  · constructor
    · intro hf; exact absurd hf (by simp)
    · rintro ⟨-, -, -, -, hdl, -⟩; exact absurd hdl (Nat.not_le.mpr h4)
  · simp only [Bool.or_eq_true, not_or, Bool.not_eq_true] at h1
    constructor
    · intro hbal
      exact ⟨h1.1, h1.2, Nat.not_lt.mp h2, Nat.not_lt.mp h3, Nat.not_lt.mp h4,
        of_decide_eq_true hbal⟩
    · rintro ⟨-, -, -, -, -, hbal⟩; exact decide_eq_true hbal

theorem eligibleNoReset_true_iff {user time : Nat} {s : FaucetState} :
    eligibleNoReset user user time s = true ↔
    (s.paused = false ∧ s.blacklisted user = false ∧
     s.lastRequestTime user + s.cooldownTime ≤ time ∧
     s.totalTokensReceived user + s.tokensPerRequest ≤ s.maxTokensPerAddress ∧
     s.totalDistributedToday + s.tokensPerRequest ≤ s.dailyLimit ∧
     s.tokensPerRequest ≤ s.extBal s.token) := by
  unfold eligibleNoReset
  simp [Bool.and_eq_true, Bool.not_eq_true', and_assoc]

theorem requestTokens_succeeds_iff {user time : Nat} {s : FaucetState} :
    succeeds (requestTokens user user time s) = true ↔
    (s.paused = false ∧ s.blacklisted user = false ∧
     s.lastRequestTime user + s.cooldownTime ≤ time ∧
     s.totalTokensReceived user + s.tokensPerRequest ≤ s.maxTokensPerAddress ∧
     (resetDailyLimitIfNeeded time s).totalDistributedToday + s.tokensPerRequest
       ≤ s.dailyLimit ∧
     s.tokensPerRequest ≤ s.extBal s.token) := by
  constructor
  · intro h
    obtain ⟨s', hs'⟩ := succeeds_iff_ok.mp h
    obtain ⟨hp, -, hb, hcd, hcap, hdl, hbal, -⟩ := requestTokens_ok_inv hs'
    exact ⟨hp, hb, hcd, hcap, hdl, hbal⟩
  · intro hh
    obtain ⟨hp, hb, hcd, hcap, hdl, hbal⟩ := hh
    exact succeeds_ok (requestTokens_ok user time s hp hb hcd hcap hdl hbal)

/-- C1 (counterexample): the claim that totalDistributedToday never exceeds
dailyLimit after any sequence of controller operations fails on the code:
from a freshly deployed faucet with daily limit 10, a deposit of 1000, one
successful request (running total 10) and a reconfiguration to daily limit
5 (allowed, since 5 is at least the new tokensPerRequest 5) leave
totalDistributedToday = 10 above dailyLimit = 5. -/
theorem c1_counterexample :
    deployFaucet 1 7 10 0 100 10 0 = .ok c1s0 ∧
    ¬ ((execSeq [Op.depositTokens 3 1000, Op.requestTokens 2 2 0,
          Op.configureFaucet 1 5 0 5 5] c1s0).totalDistributedToday ≤
        (execSeq [Op.depositTokens 3 1000, Op.requestTokens 2 2 0,
          Op.configureFaucet 1 5 0 5 5] c1s0).dailyLimit) := by
  exact ⟨rfl, by decide⟩

/-- C1 (amended): for every state satisfying the bound and every sequence of
controller operations in which no successful configureFaucet sets the daily
limit below the running total at that moment, totalDistributedToday never
exceeds dailyLimit. -/
theorem c1_daily_cap (ops : List Op) :
    ∀ s : FaucetState, s.totalDistributedToday ≤ s.dailyLimit →
    respectsDailyCap ops s = true →
    (execSeq ops s).totalDistributedToday ≤ (execSeq ops s).dailyLimit := by
  induction ops with
  | nil => intro s h _; exact h
  | cons op rest ih =>
    intro s h hr
    simp only [respectsDailyCap, Bool.and_eq_true] at hr
    exact ih (exec op s) (exec_dailyCap_step op s h hr.1) hr.2

/-- C1 (witness): the amended daily-cap invariant evaluated on a concrete
run with one request and one cap-respecting reconfiguration. -/
theorem c1_daily_cap_witness :
    (s0.totalDistributedToday ≤ s0.dailyLimit ∧
     respectsDailyCap [Op.requestTokens 2 2 4000, Op.configureFaucet 1 10 0 100 50] s0
       = true) ∧
    (execSeq [Op.requestTokens 2 2 4000, Op.configureFaucet 1 10 0 100 50]
        s0).totalDistributedToday ≤
      (execSeq [Op.requestTokens 2 2 4000, Op.configureFaucet 1 10 0 100 50]
        s0).dailyLimit :=
  ⟨⟨by decide, by decide⟩, c1_daily_cap _ s0 (by decide) (by decide)⟩

/-- C2 (counterexample): the claim that totalTokensReceived of an address
never exceeds maxTokensPerAddress after any sequence of operations fails on
the code: from a freshly deployed faucet with per-address cap 10, a
deposit, one successful request by address 2 (lifetime total 10) and a
reconfiguration to cap 5 leave totalTokensReceived 2 = 10 above cap 5. -/
theorem c2_counterexample :
    deployFaucet 1 7 10 0 10 1000 0 = .ok c2s0 ∧
    ¬ ((execSeq [Op.depositTokens 3 1000, Op.requestTokens 2 2 0,
          Op.configureFaucet 1 5 0 5 5] c2s0).totalTokensReceived 2 ≤
        (execSeq [Op.depositTokens 3 1000, Op.requestTokens 2 2 0,
          Op.configureFaucet 1 5 0 5 5] c2s0).maxTokensPerAddress) := by
  exact ⟨rfl, by decide⟩

/-- C2 (amended): for every address a, every state satisfying the bound for
a, and every sequence of controller operations in which no successful
configureFaucet sets the per-address cap below the lifetime total a already
received at that moment, totalTokensReceived a never exceeds
maxTokensPerAddress. -/
theorem c2_addr_cap (a : Nat) (ops : List Op) :
    ∀ s : FaucetState, s.totalTokensReceived a ≤ s.maxTokensPerAddress →
    respectsAddrCap a ops s = true →
    (execSeq ops s).totalTokensReceived a ≤ (execSeq ops s).maxTokensPerAddress := by
  induction ops with
  | nil => intro s h _; exact h
  | cons op rest ih =>
    intro s h hr
    simp only [respectsAddrCap, Bool.and_eq_true] at hr
    exact ih (exec op s) (exec_addrCap_step a op s h hr.1) hr.2

/-- C2 (witness): the amended per-address cap invariant evaluated on a
concrete run with one request and one cap-respecting reconfiguration. -/
theorem c2_addr_cap_witness :
    (s0.totalTokensReceived 2 ≤ s0.maxTokensPerAddress ∧
     respectsAddrCap 2 [Op.requestTokens 2 2 4000, Op.configureFaucet 1 10 0 100 50] s0
       = true) ∧
    (execSeq [Op.requestTokens 2 2 4000, Op.configureFaucet 1 10 0 100 50]
        s0).totalTokensReceived 2 ≤
      (execSeq [Op.requestTokens 2 2 4000, Op.configureFaucet 1 10 0 100 50]
        s0).maxTokensPerAddress :=
  ⟨⟨by decide, by decide⟩, c2_addr_cap 2 _ s0 (by decide) (by decide)⟩

/-- C3: when a full day has elapsed since lastResetTime, requestTokens
performs the epoch reset (running total zeroed, lastResetTime stamped,
DailyLimitReset emitted) before the daily-cap check, so the call succeeds
against the zeroed total whenever the other checks pass, regardless of the
stale running total; when the day has not elapsed, no reset happens: the
reset fields are untouched, the running total simply increases and no reset
record is emitted. -/
theorem c3_epoch_reset :
    (∀ (s : FaucetState) (u t : Nat),
      s.paused = false → s.blacklisted u = false →
      s.lastRequestTime u + s.cooldownTime ≤ t →
      s.totalTokensReceived u + s.tokensPerRequest ≤ s.maxTokensPerAddress →
      s.lastResetTime + 86400 ≤ t →
      s.tokensPerRequest ≤ s.dailyLimit →
      s.tokensPerRequest ≤ s.extBal s.token →
      requestTokens u u t s = .ok (requestSuccState u t s) ∧
      (requestSuccState u t s).totalDistributedToday = s.tokensPerRequest ∧
      (requestSuccState u t s).lastResetTime = t ∧
      (requestSuccState u t s).log =
        Event.tokensRequested u s.tokensPerRequest t ::
          Event.dailyLimitReset t s.totalDistributedToday :: s.log) ∧
    (∀ (s s' : FaucetState) (u o t : Nat),
      t < s.lastResetTime + 86400 →
      requestTokens u o t s = .ok s' →
      s'.lastResetTime = s.lastResetTime ∧
      s'.totalDistributedToday = s.totalDistributedToday + s.tokensPerRequest ∧
      s'.log = Event.tokensRequested u s.tokensPerRequest t :: s.log) := by
  constructor
  · intro s u t hp hb hcd hcap hdue hdl hbal
    have hdl' : (resetDailyLimitIfNeeded t s).totalDistributedToday +
        s.tokensPerRequest ≤ s.dailyLimit := by
      rw [resetIfNeeded_due hdue]
      simpa [resetDailyLimit] using hdl
    refine ⟨requestTokens_ok u t s hp hb hcd hcap hdl' hbal, ?_, ?_, ?_⟩
    · rw [requestSuccState_totalDistributedToday, resetIfNeeded_due hdue]
      simp [resetDailyLimit]
    · rw [requestSuccState_lastResetTime, resetIfNeeded_due hdue]; rfl
    · rw [requestSuccState_log, resetIfNeeded_due hdue]; rfl
  · intro s s' u o t hlt h
    obtain ⟨-, -, -, -, -, -, -, hs⟩ := requestTokens_ok_inv h
    subst hs
    refine ⟨?_, ?_, ?_⟩
    · rw [requestSuccState_lastResetTime, resetIfNeeded_notDue hlt]
    · rw [requestSuccState_totalDistributedToday, resetIfNeeded_notDue hlt]
    · rw [requestSuccState_log, resetIfNeeded_notDue hlt]

/-- C3 (witness): from a state with the running total at the 1000 limit and
a stale epoch, a request at time 90000 succeeds with the total reset to one
payout; and a request inside the epoch leaves the reset fields alone. -/
theorem c3_epoch_reset_witness :
    (requestTokens 2 2 90000 c3s = .ok (requestSuccState 2 90000 c3s) ∧
     (requestSuccState 2 90000 c3s).totalDistributedToday = c3s.tokensPerRequest ∧
     (requestSuccState 2 90000 c3s).lastResetTime = 90000) ∧
    (c3post.lastResetTime = s0.lastResetTime ∧
     c3post.totalDistributedToday = s0.totalDistributedToday + s0.tokensPerRequest) := by
  have h1 := c3_epoch_reset.1 c3s 2 90000 (by decide) (by decide) (by decide)
    (by decide) (by decide) (by decide) (by decide)
  have h2 := c3_epoch_reset.2 s0 c3post 2 2 4000 (by decide) rfl
  exact ⟨⟨h1.1, h1.2.1, h1.2.2.1⟩, ⟨h2.1, h2.2.1⟩⟩

/-- C4: after a successful direct request by a at time T, any direct
request by a before T plus the cooldown fails with the cooldown error, and
a direct request at or after that moment succeeds provided the per-address
cap, the daily cap (after any due reset) and the balance conditions hold;
pause, blacklist and originator conditions carry over unchanged from the
successful call. -/
theorem c4_cooldown :
    ∀ (s s' : FaucetState) (a T : Nat),
      requestTokens a a T s = .ok s' →
      (∀ t, t < T + s'.cooldownTime →
        requestTokens a a t s' = .error .cooldownActive) ∧
      (∀ t, T + s'.cooldownTime ≤ t →
        s'.totalTokensReceived a + s'.tokensPerRequest ≤ s'.maxTokensPerAddress →
        (resetDailyLimitIfNeeded t s').totalDistributedToday + s'.tokensPerRequest
          ≤ s'.dailyLimit →
        s'.tokensPerRequest ≤ s'.extBal s'.token →
        requestTokens a a t s' = .ok (requestSuccState a t s')) := by
  intro s s' a T h
  obtain ⟨hp, -, hb, -, -, -, -, hs⟩ := requestTokens_ok_inv h
  subst hs
  have hp' : (requestSuccState a T s).paused = false := by
    rw [requestSuccState_paused]; exact hp
  have hb' : (requestSuccState a T s).blacklisted a = false := by
    rw [requestSuccState_blacklisted]; exact hb
  have hlrt : (requestSuccState a T s).lastRequestTime a = T := by
    rw [requestSuccState_lastRequestTime, Function.update_same]
  constructor
  · intro t ht
    have hcd : t < (requestSuccState a T s).lastRequestTime a +
        (requestSuccState a T s).cooldownTime := by
      rw [hlrt]; exact ht
    exact requestTokens_cooldown_error hp' hb' hcd
  · intro t ht hcap hdl hbal
    have hcd : (requestSuccState a T s).lastRequestTime a +
        (requestSuccState a T s).cooldownTime ≤ t := by
      rw [hlrt]; exact ht
    exact requestTokens_ok a t _ hp' hb' hcd hcap hdl hbal

/-- C4 (witness): user 2 succeeds at time 10000, is refused with the
cooldown error at time 10005, and succeeds again at time 13601, one second
past the 3600 s cooldown. -/
theorem c4_cooldown_witness :
    requestTokens 2 2 10000 s0 = .ok c4post ∧
    requestTokens 2 2 10005 c4post = .error .cooldownActive ∧
    requestTokens 2 2 13601 c4post = .ok (requestSuccState 2 13601 c4post) := by
  have h := c4_cooldown s0 c4post 2 10000 rfl
  exact ⟨rfl, h.1 10005 (by decide),
    h.2 13601 (by decide) (by decide) (by decide) (by decide)⟩

/-- C5: the canRequestNow field of getUserInfo coincides with the
specified eligibility conjunction (checks 1 to 5 and 7 to 8 for a direct
call, current running total, no reset), and, whenever no reset is due, it
coincides with whether a direct requestTokens call would succeed. -/
theorem c5_canRequestNow :
    ∀ (s : FaucetState) (u t : Nat),
      ((getUserInfo u t s).2.2.1 = eligibleNoReset u u t s) ∧
      (t < s.lastResetTime + 86400 →
        (getUserInfo u t s).2.2.1 = succeeds (requestTokens u u t s)) := by
  intro s u t
  constructor
  · show canUserRequest u t s = eligibleNoReset u u t s
    exact bool_eq_of_true_iff (canUserRequest_true_iff.trans eligibleNoReset_true_iff.symm)
  · intro hlt
    show canUserRequest u t s = succeeds (requestTokens u u t s)
    have h2 := @requestTokens_succeeds_iff u t s
    rw [resetIfNeeded_notDue hlt] at h2
    exact bool_eq_of_true_iff (canUserRequest_true_iff.trans h2.symm)

/-- C5 (witness): both equalities evaluated for user 2 at time 0 on the
running faucet. -/
theorem c5_canRequestNow_witness :
    (getUserInfo 2 0 s0).2.2.1 = eligibleNoReset 2 2 0 s0 ∧
    (getUserInfo 2 0 s0).2.2.1 = succeeds (requestTokens 2 2 0 s0) :=
  ⟨(c5_canRequestNow s0 2 0).1, (c5_canRequestNow s0 2 0).2 (by decide)⟩

/-- C6: every operation that fails with a named error leaves the executed
state, including every counter, user record, flag and the custodied
balances, exactly as before the call (the transaction-revert semantics of
the interpreter). -/
theorem c6_failure_atomicity :
    ∀ (op : Op) (s : FaucetState) (e : Err),
      applyOp op s = .error e → exec op s = s := by
  intro op s e h
  unfold exec
  rw [h]

/-- C6 (witness): a withdrawal by a non-owner fails unauthorized and the
executed state is the pre-call state. -/
theorem c6_failure_atomicity_witness :
    applyOp (Op.withdrawTokens 2 50) s0 = .error .unauthorized ∧
    exec (Op.withdrawTokens 2 50) s0 = s0 :=
  ⟨rfl, c6_failure_atomicity _ s0 .unauthorized rfl⟩

/-- C7 (counterexample): emergencyWithdraw performs no explicit balance
check, so with a custodied balance of 5 a withdrawal of 10 by the owner
fails with the ledger-level transfer failure, not with
insufficientFaucetBalance as the claim states. -/
theorem c7_counterexample :
    c7s.extBal c7s.token < 10 ∧
    emergencyWithdraw c7s.owner 7 10 c7s = .error .ledgerTransferFailed ∧
    Err.ledgerTransferFailed ≠ Err.insufficientFaucetBalance :=
  ⟨by decide, rfl, by decide⟩

/-- C7 (amended): called by the administrator, withdrawTokens fails
invalidAmount on a zero amount and insufficientFaucetBalance when the
custodied balance is short, otherwise debits the balance, records the
transfer to the administrator and emits TokensWithdrawn; emergencyWithdraw
fails invalidAmount on a zero amount but performs no explicit balance
check: a short balance surfaces as the ledger transfer failure; otherwise
it debits the target ledger balance, records the transfer to the
administrator and emits EmergencyWithdraw. -/
theorem c7_withdrawals :
    ∀ (s : FaucetState) (amount tok : Nat),
      (withdrawTokens s.owner 0 s = .error .invalidAmount) ∧
      (0 < amount → s.extBal s.token < amount →
        withdrawTokens s.owner amount s = .error .insufficientFaucetBalance) ∧
      (0 < amount → amount ≤ s.extBal s.token →
        withdrawTokens s.owner amount s = .ok { s with
          extBal := Function.update s.extBal s.token (s.extBal s.token - amount),
          transfers := (s.token, s.owner, amount) :: s.transfers,
          log := Event.tokensWithdrawn s.owner amount :: s.log }) ∧
      (tok ≠ 0 → emergencyWithdraw s.owner tok 0 s = .error .invalidAmount) ∧
      (tok ≠ 0 → 0 < amount → s.extBal tok < amount →
        emergencyWithdraw s.owner tok amount s = .error .ledgerTransferFailed) ∧
      (tok ≠ 0 → 0 < amount → amount ≤ s.extBal tok →
        emergencyWithdraw s.owner tok amount s = .ok { s with
          extBal := Function.update s.extBal tok (s.extBal tok - amount),
          transfers := (tok, s.owner, amount) :: s.transfers,
          log := Event.emergencyWithdraw tok amount :: s.log }) := by
  intro s amount tok
  refine ⟨?_, ?_, ?_, ?_, ?_, ?_⟩
  · unfold withdrawTokens
    rw [if_pos rfl, if_pos rfl]
  · intro h0 hlt
    unfold withdrawTokens
    rw [if_pos rfl, if_neg (Nat.pos_iff_ne_zero.mp h0), if_pos hlt]
  · intro h0 hle
    unfold withdrawTokens
    rw [if_pos rfl, if_neg (Nat.pos_iff_ne_zero.mp h0), if_neg (Nat.not_lt.mpr hle),
      safeTransfer_ok hle]
  · intro htok
    unfold emergencyWithdraw
    rw [if_pos rfl, if_neg htok, if_pos rfl]
  · intro htok h0 hlt
    unfold emergencyWithdraw
    rw [if_pos rfl, if_neg htok, if_neg (Nat.pos_iff_ne_zero.mp h0),
      safeTransfer_short hlt]
  · intro htok h0 hle
    unfold emergencyWithdraw
    rw [if_pos rfl, if_neg htok, if_neg (Nat.pos_iff_ne_zero.mp h0),
      safeTransfer_ok hle]

/-- C7 (witness): the amended behaviour evaluated concretely: zero-amount
failures, a successful owner withdrawal of 50, and the short-balance
emergency withdrawal failing at the ledger. -/
theorem c7_withdrawals_witness :
    withdrawTokens s0.owner 0 s0 = .error .invalidAmount ∧
    succeeds (withdrawTokens s0.owner 50 s0) = true ∧
    emergencyWithdraw s0.owner 7 0 s0 = .error .invalidAmount ∧
    emergencyWithdraw c7s.owner 7 10 c7s = .error .ledgerTransferFailed := by
  have h := c7_withdrawals s0 50 7
  have h2 := c7_withdrawals c7s 10 7
  exact ⟨h.1, succeeds_ok (h.2.2.1 (by decide) (by decide)), h.2.2.2.1 (by decide),
    h2.2.2.2.2.1 (by decide) (by decide) (by decide)⟩

/-- C8: batchDistribute succeeds exactly when the caller is the owner, the
arrays are equal-length and non-empty, the aggregate balance is covered and
every entry has a non-zero recipient and amount (no cooldown, per-address
cap, daily cap, blacklist or pause condition appears); a successful batch
leaves lastRequestTime, totalTokensReceived, totalDistributedToday,
lastResetTime, the blacklist and the pause flag at their pre-call values;
and a batch that succeeds also succeeds with the faucet paused. -/
theorem c8_batch_bypass :
    ∀ (c : Nat) (r a : List Nat) (t : Nat) (s : FaucetState),
      (succeeds (batchDistribute c r a t s) = true ↔
        (c = s.owner ∧ r.length = a.length ∧ r ≠ [] ∧
         sumAmounts a ≤ s.extBal s.token ∧ entriesOk r a = true)) ∧
      (∀ s', batchDistribute c r a t s = .ok s' →
        s'.lastRequestTime = s.lastRequestTime ∧
        s'.totalTokensReceived = s.totalTokensReceived ∧
        s'.totalDistributedToday = s.totalDistributedToday ∧
        s'.lastResetTime = s.lastResetTime ∧
        s'.blacklisted = s.blacklisted ∧
        s'.paused = s.paused) ∧
      (succeeds (batchDistribute c r a t s) = true →
        succeeds (batchDistribute c r a t { s with paused := true }) = true) := by
  intro c r a t s
  refine ⟨batchDistribute_succeeds_iff, ?_, ?_⟩
  · intro s' h
    have hfr := batchDistribute_ok_frame h
    exact ⟨hfr.2.2.2.2.2.2.2.2.1, hfr.2.2.2.2.2.2.2.2.2.1, hfr.2.2.2.2.2.2.1,
      hfr.2.2.2.2.2.2.2.1, hfr.2.2.2.2.2.2.2.2.2.2.1, hfr.2.2.2.2.2.2.2.2.2.2.2⟩
  · intro h
    have hh := batchDistribute_succeeds_iff.mp h
    exact batchDistribute_succeeds_iff.mpr
      ⟨hh.1, hh.2.1, hh.2.2.1, hh.2.2.2.1, hh.2.2.2.2⟩

/-- C8 (witness): the specification scenario batchDistribute to users 2 and
3 of 50 and 75 tokens: it succeeds, touches none of the rate-limiting
fields, and still succeeds when the faucet is paused. -/
theorem c8_batch_bypass_witness :
    batchDistribute 1 [2, 3] [50, 75] 5 s0 = .ok c8post ∧
    c8post.lastRequestTime = s0.lastRequestTime ∧
    c8post.totalTokensReceived = s0.totalTokensReceived ∧
    c8post.totalDistributedToday = s0.totalDistributedToday ∧
    succeeds (batchDistribute 1 [2, 3] [50, 75] 5 { s0 with paused := true })
      = true := by
  have h := c8_batch_bypass 1 [2, 3] [50, 75] 5 s0
  have hok : batchDistribute 1 [2, 3] [50, 75] 5 s0 = .ok c8post := rfl
  have hfr := h.2.1 c8post hok
  exact ⟨hok, hfr.1, hfr.2.1, hfr.2.2.1, h.2.2 (succeeds_ok hok)⟩

/-- C9: a successful configureFaucet replaces exactly the four
configuration fields and leaves the running total, the epoch start, every
user record, the blacklist, the pause flag, the custodied balances and the
transfer history unchanged; in particular lowering dailyLimit mid-epoch
neither resets nor clamps totalDistributedToday. -/
theorem c9_configure_frame :
    ∀ (caller tpr cd maxT dl : Nat) (s s' : FaucetState),
      configureFaucet caller tpr cd maxT dl s = .ok s' →
      s'.tokensPerRequest = tpr ∧ s'.cooldownTime = cd ∧
      s'.maxTokensPerAddress = maxT ∧ s'.dailyLimit = dl ∧
      s'.totalDistributedToday = s.totalDistributedToday ∧
      s'.lastResetTime = s.lastResetTime ∧
      s'.lastRequestTime = s.lastRequestTime ∧
      s'.totalTokensReceived = s.totalTokensReceived ∧
      s'.blacklisted = s.blacklisted ∧
      s'.paused = s.paused ∧
      s'.extBal = s.extBal ∧
      s'.transfers = s.transfers := by
  intro caller tpr cd maxT dl s s' h
  obtain ⟨-, -, -, -, hs⟩ := configureFaucet_ok_inv h
  subst hs
  exact ⟨rfl, rfl, rfl, rfl, rfl, rfl, rfl, rfl, rfl, rfl, rfl, rfl⟩

/-- C9 (witness): reconfiguring to daily limit 30 while 500 is already
distributed succeeds and leaves the 500 untouched. -/
theorem c9_configure_frame_witness :
    configureFaucet 1 10 60 30 30 c9s = .ok c9post ∧
    c9post.dailyLimit = 30 ∧ c9post.totalDistributedToday = 500 ∧
    c9post.lastResetTime = c9s.lastResetTime := by
  have h := c9_configure_frame 1 10 60 30 30 c9s c9post rfl
  refine ⟨rfl, h.2.2.2.1, ?_, h.2.2.2.2.2.1⟩
  rw [h.2.2.2.2.1]; rfl

/-- C10: with the owner calling, equal-length non-empty arrays, every
recipient non-zero and the balance covering the total, a zero amount
anywhere makes batchDistribute fail with the invalid-amount error, and the
executed state is the unchanged pre-call state (no transfer of any entry
survives). -/
theorem c10_zero_amount :
    ∀ (c : Nat) (r a : List Nat) (t : Nat) (s : FaucetState),
      c = s.owner → r.length = a.length → r ≠ [] →
      (∀ x ∈ r, x ≠ 0) → sumAmounts a ≤ s.extBal s.token → 0 ∈ a →
      batchDistribute c r a t s = .error .invalidAmount ∧
      exec (Op.batchDistribute c r a t) s = s := by
  intro c r a t s hc hlen hne hall hbal hmem
  have herr : batchDistribute c r a t s = .error .invalidAmount := by
    unfold batchDistribute
    rw [if_pos hc, if_neg (not_ne_iff.mpr hlen),
      if_neg (fun h0 => hne (List.length_eq_zero.mp h0)),
      if_neg (Nat.not_lt.mpr hbal)]
    exact distributeLoop_zeroAmount r a s hlen hall hmem hbal
  refine ⟨herr, ?_⟩
  rw [exec_op_batchDistribute, herr]

/-- C10 (witness): a batch of amounts 50 and 0 to valid recipients with
ample balance fails invalidAmount and changes nothing. -/
theorem c10_zero_amount_witness :
    batchDistribute 1 [2, 3] [50, 0] 5 s0 = .error .invalidAmount ∧
    exec (Op.batchDistribute 1 [2, 3] [50, 0] 5) s0 = s0 :=
  c10_zero_amount 1 [2, 3] [50, 0] 5 s0 (by decide) (by decide) (by decide)
    (by decide) (by decide) (by decide)

end TokenFaucet
